import Mathlib

/-!
# Verification of the `neural-mcp` gateway (awsaylot/myclank)

A shallow embedding of `mcp/internal/api/auth.go` and
`mcp/internal/api/webchat.go`.

Conventions of the embedding:
* Go `string` values are Lean `String`s.  The code only compares strings for
  equality and cuts the `Authorization` header at the ASCII space.
* Go `int` is `Int`; the code only compares `MaxTokens` with `0`.
* Go `float64` is `Float64`, the IEEE-754 fields of the value; the code only
  compares `Temperature` with `0`.
* Logging calls have no effect on the outcome of a request and are left out.
* Library and network behaviour (`encoding/json`, `net/http`, the WebSocket
  connection, the clock) is supplied by the `World` and `Conn` structures;
  `World.Do` is the result of `client.Do`, and `Network` with `clientDo` is the
  layer below it: single HTTP exchanges and the default redirect following of
  `http.Client`.
-/

namespace NeuralMCP

/-! ## Configuration (`mcp/internal/config.go`) -/

/-- An IEEE-754 binary64 value given by its sign bit, biased exponent field and
fraction field. -/
structure Float64 where
  sign : Bool
  exponent : Nat
  fraction : Nat
  deriving DecidableEq, Repr

/-- The Go comparison `x == 0` on `float64`: true for `+0` and for `-0`, false for
every other value (`NaN` included). -/
def Float64.eqZero (x : Float64) : Bool :=
  x.exponent == 0 && x.fraction == 0

/-- The `Config` struct of `internal/config.go`. -/
structure Config where
  Port : String
  Environment : String
  LLMEndpoint : String
  ModelName : String
  MaxTokens : Int
  Temperature : Float64
  RequestTimeout : Int
  APIKey : String
  RequireAuth : Bool
  AllowedOrigins : List String
  LogLevel : String
  LogFile : String
  deriving DecidableEq, Repr

/-! ## `strings.SplitN` with a one-byte separator -/

/-- Cut a character list at the first occurrence of `sep`: the text before it
and the text after it, or `none` when `sep` does not occur (`strings.Index`
returning `-1`). -/
def cutAt (sep : Char) : List Char → Option (List Char × List Char)
  | [] => none
  | c :: cs =>
    if c = sep then some ([], cs)
    else match cutAt sep cs with
      | none => none
      | some (a, b) => some (c :: a, b)

/-- The loop of `strings.SplitN`: at most `k` further cuts, the last element is
the unsplit remainder. -/
def splitGo (sep : Char) : Nat → List Char → List (List Char)
  | 0, s => [s]
  | k + 1, s =>
    match cutAt sep s with
    | none => [s]
    | some (a, b) => a :: splitGo sep k b

/-- The Go function `strings.SplitN(s, sep, n)` for a one-character separator and
`n ≥ 0`: `n = 0` gives no parts, otherwise at most `n` parts, the last one being
the unsplit remainder. -/
def SplitN (s : String) (sep : Char) (n : Nat) : List String :=
  match n with
  | 0 => []
  | k + 1 => (splitGo sep k s.data).map String.mk

/-! ## Auth gate (`mcp/internal/api/auth.go`) -/

/-- What a gin middleware did with the request: `next` is `c.Next()` (the next
handler runs), `abort status error code` is
`c.JSON(status, gin.H{"error": error, "code": code}); c.Abort()`. -/
inductive AuthOutcome where
  | next
  | abort (status : Nat) (error : String) (code : String)
  deriving DecidableEq, Repr

/-- The constant `http.StatusUnauthorized`. -/
def StatusUnauthorized : Nat := 401
/-- The constant `http.StatusInternalServerError`. -/
def StatusInternalServerError : Nat := 500
/-- The constant `http.StatusBadRequest`. -/
def StatusBadRequest : Nat := 400
/-- The constant `http.StatusServiceUnavailable`. -/
def StatusServiceUnavailable : Nat := 503
/-- The constant `http.StatusOK`. -/
def StatusOK : Nat := 200

/-- The middleware `AuthHandler.OptionalAuth`; `authHeader` is
`c.GetHeader("Authorization")`, the empty string when the header is absent. -/
def OptionalAuth (config : Config) (authHeader : String) : AuthOutcome :=
  if !config.RequireAuth then .next
  else if config.APIKey = "" then .next
  else if authHeader = "" then
    .abort StatusUnauthorized "Authorization header required" "MISSING_AUTH_HEADER"
  else
    match SplitN authHeader ' ' 2 with
    | [p0, p1] =>
      if p0 ≠ "Bearer" then
        .abort StatusUnauthorized
          "Invalid Authorization header format. Expected: Bearer <token>" "INVALID_AUTH_FORMAT"
      else if p1 ≠ config.APIKey then
        .abort StatusUnauthorized "Invalid API key" "INVALID_API_KEY"
      else .next
    | _ =>
      .abort StatusUnauthorized
        "Invalid Authorization header format. Expected: Bearer <token>" "INVALID_AUTH_FORMAT"

/-- The middleware `AuthHandler.RequiredAuth`. -/
def RequiredAuth (config : Config) (authHeader : String) : AuthOutcome :=
  if config.APIKey = "" then
    .abort StatusInternalServerError "Server configuration error" "CONFIG_ERROR"
  else if authHeader = "" then
    .abort StatusUnauthorized "Authorization header required" "MISSING_AUTH_HEADER"
  else
    match SplitN authHeader ' ' 2 with
    | [p0, p1] =>
      if p0 ≠ "Bearer" then
        .abort StatusUnauthorized "Invalid Authorization header format" "INVALID_AUTH_FORMAT"
      else if p1 ≠ config.APIKey then
        .abort StatusUnauthorized "Invalid API key" "INVALID_API_KEY"
      else .next
    | _ =>
      .abort StatusUnauthorized "Invalid Authorization header format" "INVALID_AUTH_FORMAT"

/-- The request was admitted: the next handler runs. -/
def AuthOutcome.admitted : AuthOutcome → Bool
  | .next => true
  | .abort _ _ _ => false

/-! ## Chat data model (`mcp/internal/api/webchat.go`) -/

/-- The struct `ChatMessage`. -/
structure ChatMessage where
  Role : String
  Content : String
  deriving DecidableEq, Repr

/-- The struct `ChatCompletionRequest`; `Extra` (a map that JSON never fills,
tag `json:"-"`) is a list of key/value pairs. -/
structure ChatCompletionRequest where
  Model : String
  Messages : List ChatMessage
  MaxTokens : Int
  Temperature : Float64
  Stream : Bool
  User : String
  Extra : List (String × String)
  deriving DecidableEq, Repr

/-- The struct `ChatCompletionUsage`. -/
structure ChatCompletionUsage where
  PromptTokens : Int
  CompletionTokens : Int
  TotalTokens : Int
  deriving DecidableEq, Repr

/-- The struct `ChatCompletionChoice`. -/
structure ChatCompletionChoice where
  Index : Int
  Message : ChatMessage
  FinishReason : String
  deriving DecidableEq, Repr

/-- The struct `ChatCompletionResponse`. -/
structure ChatCompletionResponse where
  ID : String
  Object : String
  Created : Int
  Model : String
  Choices : List ChatCompletionChoice
  Usage : ChatCompletionUsage
  SystemFingerprint : String
  deriving DecidableEq, Repr

/-- The `Data interface{}` field of a WebSocket message: nil, the usage
structure the handler stores there, or any other JSON value a client sent. -/
inductive WSData where
  | absent
  | usage (u : ChatCompletionUsage)
  | json (raw : String)
  deriving DecidableEq, Repr

/-- The struct `WSMessage`; `Timestamp` is an instant of the clock. -/
structure WSMessage where
  Type' : String
  Content : String
  Role : String
  Timestamp : Nat
  Data : WSData
  Error : String
  deriving DecidableEq, Repr

/-! ## Environment of the handlers -/

/-- A downstream HTTP response as `forwardToLLM` sees it: the status code, the
bytes `io.ReadAll(resp.Body)` returns and whether it returns them with an error. -/
structure HTTPReply where
  StatusCode : Int
  Body : String
  ReadErr : Bool
  deriving DecidableEq, Repr

/-- Behaviour of the libraries and of the network that `webchat.go` calls:
`json.Marshal` on a request, `http.NewRequest` on the downstream URL,
`client.Do` (argument: number of earlier forwards, URL, payload, timeout in
seconds; `none` is a transport error), `json.Unmarshal` into a
`ChatCompletionResponse`, and the successive values of `time.Now()`. -/
structure World where
  Marshal : ChatCompletionRequest → Option String
  NewRequest : String → Bool
  Do : Nat → String → String → Int → Option HTTPReply
  Unmarshal : String → Option ChatCompletionResponse
  Now : Nat → Nat

/-- The failure `forwardToLLM` returns, one constructor per `fmt.Errorf` of the
function; `status` carries the downstream status and body formatted into the
error text. -/
inductive ForwardError where
  | marshal
  | createRequest
  | unreachable
  | status (code : Int) (body : String)
  | read
  | parse
  deriving DecidableEq, Repr

/-! ## `http.Client.Do` with the default redirect policy

`forwardToLLM` builds `&http.Client{Timeout: ...}`: no `CheckRedirect` is set, so
`client.Do` follows redirects the way `net/http` does by default, and the
response `forwardToLLM` tests is the last one of the chain. -/

/-- One HTTP response on the wire: the status code, the `Location` header (empty
when absent), the bytes `io.ReadAll` returns for the body and whether it returns
them with an error. -/
structure RawReply where
  StatusCode : Int
  Location : String
  Body : String
  ReadErr : Bool
  deriving DecidableEq, Repr

/-- The network below `http.Client`: `RoundTrip k method url body` is the response
to one HTTP request sent during the `k`-th forward (`none` is a transport error
or the timeout), `Resolve url location` is `req.URL.Parse(location)` (`none`
when the `Location` header does not parse). -/
structure Network where
  RoundTrip : Nat → String → String → String → Option RawReply
  Resolve : String → String → Option String

/-- The function `redirectBehavior` of `net/http` for a request whose body can be
re-sent (`http.NewRequest` sets `GetBody` for a `*bytes.Buffer`): `none` when the
status is not a redirect, otherwise the method of the next request and whether
the body is sent again. -/
def redirectBehavior (reqMethod : String) (statusCode : Int) : Option (String × Bool) :=
  if statusCode = 301 ∨ statusCode = 302 ∨ statusCode = 303 then
    some (if reqMethod ≠ "GET" ∧ reqMethod ≠ "HEAD" then "GET" else reqMethod, false)
  else if statusCode = 307 ∨ statusCode = 308 then some (reqMethod, true)
  else none

/-- The loop of `http.Client.do`: send the request; a response that is not a
redirect, or a redirect without `Location`, is returned; otherwise the next
request goes to the resolved location, unless the default policy stops the
chain ("stopped after 10 redirects"), which is an error. `fuel` is the number
of redirects the policy still allows, `payload` the body of the first request. -/
def clientHop (net : Network) (k : Nat) (payload : String) :
    Nat → String → String → String → Option HTTPReply
  | fuel, method, url, body =>
    match net.RoundTrip k method url body with
    | none => none
    | some resp =>
      match redirectBehavior method resp.StatusCode with
      | none => some ⟨resp.StatusCode, resp.Body, resp.ReadErr⟩
      | some (redirectMethod, includeBody) =>
        if resp.Location = "" then some ⟨resp.StatusCode, resp.Body, resp.ReadErr⟩
        else
          match net.Resolve url resp.Location with
          | none => none
          | some u =>
            match fuel with
            | 0 => none
            | fuel + 1 =>
              clientHop net k payload fuel redirectMethod u (if includeBody then payload else "")

/-- The call `client.Do(httpReq)` of `forwardToLLM` for a `POST` of `payload` to
`url`: at most ten requests are sent. -/
def clientDo (net : Network) (k : Nat) (url payload : String) : Option HTTPReply :=
  clientHop net k payload 9 "POST" url payload

/-- The world in which `client.Do` runs over the network `net`. -/
def withNetwork (w : World) (net : Network) : World :=
  { w with Do := fun k url payload _ => clientDo net k url payload }

/-! ## Completion forwarder -/

/-- The method `WebChatHandler.forwardToLLM`; `k` is the number of forwards made
before this one. `ok` is the `(&llmResponse, nil)` return, `error` a
`(nil, err)` return. -/
def forwardToLLM (w : World) (config : Config) (k : Nat) (req : ChatCompletionRequest) :
    Except ForwardError ChatCompletionResponse :=
  match w.Marshal req with
  | none => .error .marshal
  | some jsonData =>
    let llmURL := config.LLMEndpoint ++ "/v1/chat/completions"
    if !w.NewRequest llmURL then .error .createRequest
    else
      match w.Do k llmURL jsonData config.RequestTimeout with
      | none => .error .unreachable
      | some resp =>
        if resp.StatusCode ≠ 200 then .error (.status resp.StatusCode resp.Body)
        else if resp.ReadErr then .error .read
        else
          match w.Unmarshal resp.Body with
          | none => .error .parse
          | some llmResponse => .ok llmResponse

/-- The body `c.JSON` writes for a REST request: the error envelope
`gin.H{"error": gin.H{"message", "type", "code"}}` or the completion. -/
inductive RESTBody where
  | error (message : String) (type : String) (code : String)
  | completion (r : ChatCompletionResponse)
  deriving DecidableEq, Repr

/-- What `HandleChatCompletion` did: the HTTP status and body it wrote, and the
requests it passed to `forwardToLLM`, in call order. -/
structure RESTResult where
  status : Nat
  body : RESTBody
  forwarded : List ChatCompletionRequest
  deriving DecidableEq, Repr

/-- The "Set defaults" block of `HandleChatCompletion`. -/
def setDefaults (config : Config) (req : ChatCompletionRequest) : ChatCompletionRequest :=
  let req := if req.MaxTokens = 0 then { req with MaxTokens := config.MaxTokens } else req
  let req := if req.Temperature.eqZero then { req with Temperature := config.Temperature } else req
  let req := if req.Model = "" then { req with Model := config.ModelName } else req
  req

/-- The handler `WebChatHandler.HandleChatCompletion`; `bound` is the result of
`c.ShouldBindJSON(&req)`, `none` when it returns an error. -/
def HandleChatCompletion (w : World) (config : Config) (bound : Option ChatCompletionRequest) :
    RESTResult :=
  match bound with
  | none =>
    ⟨StatusBadRequest, .error "Invalid request format" "invalid_request_error" "invalid_json", []⟩
  | some req =>
    if req.Messages.length = 0 then
      ⟨StatusBadRequest,
        .error "At least one message is required" "invalid_request_error" "missing_messages", []⟩
    else
      let req := setDefaults config req
      match forwardToLLM w config 0 req with
      | .error _ =>
        ⟨StatusServiceUnavailable,
          .error "LLM service unavailable" "service_unavailable" "llm_error", [req]⟩
      | .ok response => ⟨StatusOK, .completion response, [req]⟩

/-! ## WebSocket session handler -/

/-- The loop of `upgrader.CheckOrigin` over `config.AllowedOrigins`. -/
def checkOriginLoop (origin : String) : List String → Bool
  | [] => false
  | allowedOrigin :: rest =>
    if origin = allowedOrigin ∨ allowedOrigin = "*" then true
    else checkOriginLoop origin rest

/-- The `CheckOrigin` closure of `NewWebChatHandler`; `origin` is
`r.Header.Get("Origin")`, the empty string when the header is absent. -/
def CheckOrigin (config : Config) (origin : String) : Bool :=
  checkOriginLoop origin config.AllowedOrigins

/-- One client connection: the `Origin` header of the upgrade request, whether
the rest of the upgrade handshake succeeds, the successive results of
`conn.ReadJSON` (`none` is an error; a read past the end of the list is an
error: the peer is gone), and whether the `k`-th `conn.WriteJSON` succeeds. -/
structure Conn where
  Origin : String
  HandshakeOk : Bool
  Reads : List (Option WSMessage)
  WriteOk : Nat → Bool

/-- Observable steps of `HandleWebSocket`, in order. -/
inductive WSEvent where
  | upgradeFailed
  | read (r : Option WSMessage)
  | forward (req : ChatCompletionRequest)
  | write (m : WSMessage) (ok : Bool)
  | panicked
  | close
  deriving DecidableEq, Repr

/-- The `ChatCompletionRequest` literal `HandleWebSocket` builds for a chat event with
the given content. -/
def wsRequest (config : Config) (content : String) : ChatCompletionRequest :=
  { Model := config.ModelName
    Messages := [{ Role := "user", Content := content }]
    MaxTokens := config.MaxTokens
    Temperature := config.Temperature
    Stream := false
    User := ""
    Extra := [] }

/-- Counters of the session: `WriteJSON` calls, `forwardToLLM` calls and
`time.Now()` calls made so far. -/
structure LoopState where
  writes : Nat
  calls : Nat
  ticks : Nat
  deriving DecidableEq, Repr

/-- The `for` loop of `HandleWebSocket` followed by the deferred `conn.Close()`;
`reads` are the results of the `ReadJSON` calls still to come. -/
def wsLoop (w : World) (config : Config) (conn : Conn) :
    List (Option WSMessage) → LoopState → List WSEvent
  | [], _ => [.read none, .close]
  | none :: _, _ => [.read none, .close]
  | some msg :: rest, st =>
    .read (some msg) ::
    if msg.Type' = "chat" ∧ msg.Content ≠ "" then
      let req := wsRequest config msg.Content
      .forward req ::
      match forwardToLLM w config st.calls req with
      | .error _ =>
        let errorMsg : WSMessage :=
          { Type' := "error", Content := "", Role := "", Timestamp := w.Now st.ticks,
            Data := .absent, Error := "Failed to process message" }
        .write errorMsg (conn.WriteOk st.writes) ::
          wsLoop w config conn rest ⟨st.writes + 1, st.calls + 1, st.ticks + 1⟩
      | .ok response =>
        match response.Choices with
        | [] => [.panicked, .close]
        | choice :: _ =>
          let responseMsg : WSMessage :=
            { Type' := "assistant", Content := choice.Message.Content, Role := "",
              Timestamp := w.Now st.ticks, Data := .usage response.Usage, Error := "" }
          if conn.WriteOk st.writes then
            .write responseMsg true ::
              wsLoop w config conn rest ⟨st.writes + 1, st.calls + 1, st.ticks + 1⟩
          else [.write responseMsg false, .close]
    else wsLoop w config conn rest st

/-- The handler `WebChatHandler.HandleWebSocket`. -/
def HandleWebSocket (w : World) (config : Config) (conn : Conn) : List WSEvent :=
  if !(conn.HandshakeOk && CheckOrigin config conn.Origin) then [.upgradeFailed]
  else
    let welcomeMsg : WSMessage :=
      { Type' := "system"
        Content := "Neural interface connection established. Ready for input."
        Role := "", Timestamp := w.Now 0, Data := .absent, Error := "" }
    if !conn.WriteOk 0 then [.write welcomeMsg false, .close]
    else .write welcomeMsg true :: wsLoop w config conn conn.Reads ⟨1, 0, 1⟩

/-! ## The header pattern in the words of the specification -/

/-- All the parts of a character list separated by `sep` (`strings.Split`). -/
def splitAll (sep : Char) : List Char → List (List Char)
  | [] => [[]]
  | c :: cs =>
    if c = sep then [] :: splitAll sep cs
    else match splitAll sep cs with
      | [] => [[c]]
      | p :: ps => (c :: p) :: ps

/-- The header pattern as the specification words it: the header consists of
exactly two space-separated parts and the first part is literally `Bearer`. -/
def specBearerPattern (authHeader : String) : Bool :=
  match splitAll ' ' authHeader.data with
  | [p0, _] => p0 = "Bearer".data
  | _ => false

/-! ## Sample inputs -/

/-- A configuration with authentication required and the API key `secret`. -/
def sampleConfig : Config where
  Port := "3001"
  Environment := "development"
  LLMEndpoint := "http://0.0.0.0:8080"
  ModelName := "llama"
  MaxTokens := 2048
  Temperature := ⟨false, 1022, 1801439850948198⟩
  RequestTimeout := 30
  APIKey := "secret"
  RequireAuth := true
  AllowedOrigins := ["http://localhost:3000"]
  LogLevel := "info"
  LogFile := ""

/-- A request with one message and every optional field left at its zero value. -/
def sampleRequest : ChatCompletionRequest where
  Model := ""
  Messages := [{ Role := "user", Content := "hello" }]
  MaxTokens := 0
  Temperature := ⟨false, 0, 0⟩
  Stream := false
  User := ""
  Extra := []

/-- The value `json.Unmarshal` leaves in a `ChatCompletionResponse` for the body
`{}`: every field at its zero value, no choices. -/
def zeroResponse : ChatCompletionResponse where
  ID := ""
  Object := ""
  Created := 0
  Model := ""
  Choices := []
  Usage := ⟨0, 0, 0⟩
  SystemFingerprint := ""

/-- A completion with one choice, the assistant message `hi`. -/
def sampleResponse : ChatCompletionResponse where
  ID := "cmpl-1"
  Object := "chat.completion"
  Created := 1700000000
  Model := "llama"
  Choices := [{ Index := 0, Message := { Role := "assistant", Content := "hi" },
                FinishReason := "stop" }]
  Usage := ⟨5, 1, 6⟩
  SystemFingerprint := ""

/-- A world whose downstream answers every call with `reply`: marshalling and
request creation succeed, the body `{}` decodes to `zeroResponse`, the body
`completion` stands for the JSON text of `sampleResponse`, any other body
does not decode. -/
def sampleWorld (reply : HTTPReply) : World where
  Marshal := fun _ => some "payload"
  NewRequest := fun _ => true
  Do := fun _ _ _ _ => some reply
  Unmarshal := fun body =>
    if body = "\x7b\x7d" then some zeroResponse
    else if body = "completion" then some sampleResponse
    else none
  Now := fun k => 1000 + k

/-- The inbound event `{type: "chat", content: "hello"}`. -/
def chatHello : WSMessage where
  Type' := "chat"
  Content := "hello"
  Role := ""
  Timestamp := 0
  Data := .absent
  Error := ""

/-- The inbound event `{type: "ping"}`. -/
def pingEvent : WSMessage where
  Type' := "ping"
  Content := ""
  Role := ""
  Timestamp := 0
  Data := .absent
  Error := ""

/-- A connection from the allowed origin whose writes all succeed and whose
client sends the given events and then goes away. -/
def sampleConn (events : List WSMessage) : Conn where
  Origin := "http://localhost:3000"
  HandshakeOk := true
  Reads := events.map some
  WriteOk := fun _ => true

/-- A connection from the allowed origin on which only the first `WriteJSON`
(the welcome event) succeeds and every later one fails, while the client goes
on sending the given events. -/
def sampleConnWriteFails (events : List WSMessage) : Conn where
  Origin := "http://localhost:3000"
  HandshakeOk := true
  Reads := events.map some
  WriteOk := fun k => k == 0

/-- The `error` event the session handler sends after a failed forward, stamped
with the given instant. -/
def sampleErrorEvent (timestamp : Nat) : WSMessage where
  Type' := "error"
  Content := ""
  Role := ""
  Timestamp := timestamp
  Data := .absent
  Error := "Failed to process message"

/-- A network whose downstream answers the forwarded `POST` with 302 and a
`Location`, and answers the `GET` of that location with 200 and the body
`completion`. -/
def redirectNetwork : Network where
  RoundTrip := fun _ method url _ =>
    if method = "POST" ∧ url = "http://0.0.0.0:8080/v1/chat/completions" then
      some ⟨302, "http://0.0.0.0:8080/elsewhere", "moved", false⟩
    else if method = "GET" ∧ url = "http://0.0.0.0:8080/elsewhere" then
      some ⟨200, "", "completion", false⟩
    else none
  Resolve := fun _ location => some location

/-- A network whose downstream answers every request with `raw`. -/
def constNetwork (raw : RawReply) : Network where
  RoundTrip := fun _ _ _ _ => some raw
  Resolve := fun _ location => some location

/-! ## Lemmas on `SplitN` -/

theorem cutAt_eq_none {sep : Char} {l : List Char} :
    cutAt sep l = none ↔ sep ∉ l := by
  induction l with
  | nil => simp [cutAt]
  | cons c cs ih =>
    unfold cutAt
    by_cases h : c = sep
    · simp [h]
    · have h2 : ¬ sep = c := fun e => h e.symm
      cases hc : cutAt sep cs with
      | none => simp [h, h2, ← ih, hc]
      | some p =>
        have : ¬ cutAt sep cs = none := by simp [hc]
        simp [h, h2, ← ih, hc]

theorem cutAt_eq_some {sep : Char} {l a b : List Char} :
    cutAt sep l = some (a, b) ↔ l = a ++ sep :: b ∧ sep ∉ a := by
  induction l generalizing a b with
  | nil => simp [cutAt]
  | cons c cs ih =>
    unfold cutAt
    by_cases h : c = sep
    · subst h
      simp only [if_true, Option.some.injEq, Prod.mk.injEq]
      constructor
      · rintro ⟨rfl, rfl⟩; simp
      · rintro ⟨h1, h2⟩
        cases a with
        | nil => simp at h1; exact ⟨rfl, h1⟩
        | cons x xs =>
          simp at h1 h2
          exact absurd h1.1 h2.1
    · have h2 : ¬ sep = c := fun e => h e.symm
      simp only [h, if_false]
      cases hc : cutAt sep cs with
      | none =>
        constructor
        · intro h0; simp at h0
        · rintro ⟨h3, h4⟩
          have hmem : sep ∈ cs := by
            cases a with
            | nil => simp at h3; exact absurd h3.1 h
            | cons x xs =>
              simp at h3
              rw [h3.2]; simp
          exact absurd hmem (cutAt_eq_none.mp hc)
      | some p =>
        obtain ⟨a', b'⟩ := p
        have ih' := (@ih a' b').mp hc
        simp only [Option.some.injEq, Prod.mk.injEq]
        constructor
        · rintro ⟨rfl, rfl⟩
          refine ⟨by simp [ih'.1], ?_⟩
          simp [h2, ih'.2]
        · rintro ⟨h3, h4⟩
          cases a with
          | nil => simp at h3; exact absurd h3.1 h
          | cons x xs =>
            simp at h3 h4
            have := (@ih xs b).mpr ⟨h3.2, h4.2⟩
            rw [hc] at this
            simp at this
            exact ⟨by rw [h3.1, this.1], this.2⟩

/-- The two-part split of a header `Bearer ` followed by any token. -/
theorem SplitN_bearer (tok : String) :
    SplitN ("Bearer " ++ tok) ' ' 2 = ["Bearer", tok] := by
  have h : cutAt ' ' ("Bearer " ++ tok).data = some ("Bearer".data, tok.data) := by
    rw [cutAt_eq_some]
    refine ⟨?_, by decide⟩
    rw [String.data_append]
    rfl
  simp only [SplitN, splitGo]
  rw [h]
  rfl

/-- A header whose two-part split starts with `Bearer` is `Bearer ` followed by
the second part. -/
theorem SplitN_two_eq {h p0 p1 : String} (hs : SplitN h ' ' 2 = [p0, p1]) :
    h = p0 ++ " " ++ p1 ∧ ' ' ∉ p0.data := by
  simp only [SplitN, splitGo] at hs
  cases hc : cutAt ' ' h.data with
  | none => simp [hc] at hs
  | some p =>
    obtain ⟨a, b⟩ := p
    simp [hc] at hs
    obtain ⟨rfl, rfl⟩ := hs
    have := cutAt_eq_some.mp hc
    refine ⟨?_, this.2⟩
    apply String.ext
    simp [String.data_append, this.1]

/-- The split of a header has two parts exactly when the header contains a space. -/
theorem SplitN_two_cases (h : String) :
    SplitN h ' ' 2 = [h] ∨ ∃ p0 p1, SplitN h ' ' 2 = [p0, p1] := by
  simp only [SplitN, splitGo]
  cases hc : cutAt ' ' h.data with
  | none => left; simp
  | some p => right; exact ⟨⟨p.1⟩, ⟨p.2⟩, by simp⟩

theorem bearer_append_inj {a b : String} : "Bearer " ++ a = "Bearer " ++ b ↔ a = b := by
  constructor
  · intro h
    have h2 := congrArg String.data h
    simp only [String.data_append] at h2
    exact String.ext (List.append_cancel_left h2)
  · rintro rfl; rfl

/-- Every header is of one of three kinds: `Bearer ` followed by a token, which
splits into `Bearer` and that token; a header without a space, which splits
into itself; a header whose text before the first space is not `Bearer`. -/
theorem SplitN_header_cases (h : String) :
    (∃ tok, h = "Bearer " ++ tok ∧ SplitN h ' ' 2 = ["Bearer", tok]) ∨
    ((¬ ∃ tok, h = "Bearer " ++ tok) ∧
      (SplitN h ' ' 2 = [h] ∨ ∃ p0 p1, SplitN h ' ' 2 = [p0, p1] ∧ p0 ≠ "Bearer")) := by
  by_cases hb : ∃ tok, h = "Bearer " ++ tok
  · obtain ⟨tok, rfl⟩ := hb
    exact Or.inl ⟨tok, rfl, SplitN_bearer tok⟩
  · refine Or.inr ⟨hb, ?_⟩
    rcases SplitN_two_cases h with h1 | ⟨p0, p1, h2⟩
    · exact Or.inl h1
    · refine Or.inr ⟨p0, p1, h2, ?_⟩
      rintro rfl
      exact hb ⟨p1, (SplitN_two_eq h2).1⟩

/-! ## Auth gate: theorems -/

/-- C1: `OptionalAuth` lets the request through to the next handler exactly when
`RequireAuth` is false, or `APIKey` is empty, or the `Authorization` header is
the string `Bearer ` followed by `APIKey`; in every other case it aborts
(with status 401) and the next handler does not run. -/
theorem C1_OptionalAuth_admits_iff (config : Config) (authHeader : String) :
    (OptionalAuth config authHeader = .next ↔
      (config.RequireAuth = false ∨ config.APIKey = "" ∨
        authHeader = "Bearer " ++ config.APIKey)) ∧
    (¬ (config.RequireAuth = false ∨ config.APIKey = "" ∨
        authHeader = "Bearer " ++ config.APIKey) →
      (OptionalAuth config authHeader).admitted = false ∧
      ∃ error code, OptionalAuth config authHeader = .abort 401 error code) := by
  unfold OptionalAuth
  by_cases hr : config.RequireAuth = false
  · simp [hr]
  · simp only [Bool.not_eq_false] at hr
    by_cases hk : config.APIKey = ""
    · simp [hr, hk]
    · by_cases he : authHeader = ""
      · subst he
        have : ¬ "" = "Bearer " ++ config.APIKey := by
          intro h
          have := congrArg String.length h
          simp [String.length_append] at this
          have h3 : "Bearer ".length = 7 := by decide
          omega
        simp [hr, hk, this, AuthOutcome.admitted, StatusUnauthorized]
      · rcases SplitN_header_cases authHeader with ⟨tok, rfl, hs⟩ | ⟨hn, hs | ⟨p0, p1, hs, hp⟩⟩
        · by_cases ht : tok = config.APIKey
          · subst ht
            simp [hr, hk, he, hs]
          · simp [hr, hk, he, hs, ht, bearer_append_inj, AuthOutcome.admitted,
              StatusUnauthorized]
        · have hne : ¬ authHeader = "Bearer " ++ config.APIKey := fun e => hn ⟨_, e⟩
          simp [hr, hk, he, hs, hne, AuthOutcome.admitted, StatusUnauthorized]
        · have hne : ¬ authHeader = "Bearer " ++ config.APIKey := fun e => hn ⟨_, e⟩
          simp [hr, hk, he, hs, hp, hne, AuthOutcome.admitted, StatusUnauthorized]

/-- The outcomes of `RequiredAuth`, by case on the key and the header. -/
theorem RequiredAuth_cases (config : Config) (authHeader : String) :
    (config.APIKey = "" ∧ RequiredAuth config authHeader =
        .abort 500 "Server configuration error" "CONFIG_ERROR") ∨
    (config.APIKey ≠ "" ∧ authHeader = "" ∧ RequiredAuth config authHeader =
        .abort 401 "Authorization header required" "MISSING_AUTH_HEADER") ∨
    (config.APIKey ≠ "" ∧ authHeader ≠ "" ∧ (¬ ∃ tok, authHeader = "Bearer " ++ tok) ∧
      RequiredAuth config authHeader =
        .abort 401 "Invalid Authorization header format" "INVALID_AUTH_FORMAT") ∨
    (config.APIKey ≠ "" ∧ authHeader ≠ "" ∧
      (∃ tok, authHeader = "Bearer " ++ tok ∧ tok ≠ config.APIKey) ∧
      RequiredAuth config authHeader = .abort 401 "Invalid API key" "INVALID_API_KEY") ∨
    (config.APIKey ≠ "" ∧ authHeader = "Bearer " ++ config.APIKey ∧
      RequiredAuth config authHeader = .next) := by
  unfold RequiredAuth
  by_cases hk : config.APIKey = ""
  · left; simp [hk, StatusInternalServerError]
  · right
    by_cases he : authHeader = ""
    · left; simp [hk, he, StatusUnauthorized]
    · right
      rcases SplitN_header_cases authHeader with ⟨tok, rfl, hs⟩ | ⟨hn, hs | ⟨p0, p1, hs, hp⟩⟩
      · right
        by_cases ht : tok = config.APIKey
        · subst ht
          right; simp [hk, he, hs]
        · left
          exact ⟨hk, he, ⟨tok, rfl, ht⟩, by simp [hk, he, hs, ht, StatusUnauthorized]⟩
      · left; exact ⟨hk, he, hn, by simp [hk, he, hs, StatusUnauthorized]⟩
      · left; exact ⟨hk, he, hn, by simp [hk, he, hs, hp, StatusUnauthorized]⟩

/-- The outcomes of `OptionalAuth` when authentication is required and a key is
configured, by case on the header. -/
theorem OptionalAuth_cases (config : Config) (authHeader : String)
    (hr : config.RequireAuth = true) (hk : config.APIKey ≠ "") :
    (authHeader = "" ∧ OptionalAuth config authHeader =
        .abort 401 "Authorization header required" "MISSING_AUTH_HEADER") ∨
    (authHeader ≠ "" ∧ (¬ ∃ tok, authHeader = "Bearer " ++ tok) ∧
      OptionalAuth config authHeader =
        .abort 401 "Invalid Authorization header format. Expected: Bearer <token>"
          "INVALID_AUTH_FORMAT") ∨
    (authHeader ≠ "" ∧ (∃ tok, authHeader = "Bearer " ++ tok ∧ tok ≠ config.APIKey) ∧
      OptionalAuth config authHeader = .abort 401 "Invalid API key" "INVALID_API_KEY") ∨
    (authHeader = "Bearer " ++ config.APIKey ∧ OptionalAuth config authHeader = .next) := by
  unfold OptionalAuth
  by_cases he : authHeader = ""
  · left; simp [hr, hk, he, StatusUnauthorized]
  · right
    rcases SplitN_header_cases authHeader with ⟨tok, rfl, hs⟩ | ⟨hn, hs | ⟨p0, p1, hs, hp⟩⟩
    · right
      by_cases ht : tok = config.APIKey
      · subst ht
        right; simp [hr, hk, he, hs]
      · left
        exact ⟨he, ⟨tok, rfl, ht⟩, by simp [hr, hk, he, hs, ht, StatusUnauthorized]⟩
    · left; exact ⟨he, hn, by simp [hr, hk, he, hs, StatusUnauthorized]⟩
    · left; exact ⟨he, hn, by simp [hr, hk, he, hs, hp, StatusUnauthorized]⟩

/-- C2 (as stated, refuted): with `RequireAuth = true` and the key `secret`, the
non-empty header `Bearer a b` has three space-separated parts, so it does not
match the pattern as the specification words it, yet `OptionalAuth` does not
answer `INVALID_AUTH_FORMAT`: it cuts the header at the first space only and
answers `INVALID_API_KEY`. -/
theorem C2_counterexample_three_parts :
    sampleConfig.RequireAuth = true ∧ sampleConfig.APIKey ≠ "" ∧ "Bearer a b" ≠ "" ∧
    specBearerPattern "Bearer a b" = false ∧
    OptionalAuth sampleConfig "Bearer a b" = .abort 401 "Invalid API key" "INVALID_API_KEY" := by
  decide

/-- C2 (amended): with `RequireAuth = true` and a non-empty `APIKey`, for every
non-empty `Authorization` header, `OptionalAuth` aborts with status 401 and code
`INVALID_AUTH_FORMAT` exactly when the header is not `Bearer ` followed by some
token text (the token may be empty or contain further spaces); a header that is
`Bearer ` followed by a token is admitted when the token equals `APIKey` and is
otherwise aborted with status 401 and code `INVALID_API_KEY`. -/
theorem C2_OptionalAuth_invalid_format_iff (config : Config) (authHeader : String)
    (hr : config.RequireAuth = true) (hk : config.APIKey ≠ "") (he : authHeader ≠ "") :
    ((∃ error, OptionalAuth config authHeader = .abort 401 error "INVALID_AUTH_FORMAT") ↔
      ¬ ∃ tok, authHeader = "Bearer " ++ tok) ∧
    ((¬ ∃ tok, authHeader = "Bearer " ++ tok) →
      OptionalAuth config authHeader =
        .abort 401 "Invalid Authorization header format. Expected: Bearer <token>"
          "INVALID_AUTH_FORMAT") ∧
    (∀ tok, authHeader = "Bearer " ++ tok →
      OptionalAuth config authHeader =
        if tok = config.APIKey then .next
        else .abort 401 "Invalid API key" "INVALID_API_KEY") := by
  rcases OptionalAuth_cases config authHeader hr hk with
    ⟨h1, -⟩ | ⟨-, hn, h2⟩ | ⟨-, ⟨tok, h3, h4⟩, h5⟩ | ⟨h6, h7⟩
  · exact absurd h1 he
  · refine ⟨⟨fun _ => hn, fun _ => ⟨_, h2⟩⟩, fun _ => h2, ?_⟩
    intro t ht
    exact absurd ⟨t, ht⟩ hn
  · refine ⟨⟨?_, ?_⟩, ?_, ?_⟩
    · rintro ⟨error, h⟩
      rw [h5] at h
      simp at h
    · intro hn
      exact absurd ⟨tok, h3⟩ hn
    · intro hn
      exact absurd ⟨tok, h3⟩ hn
    · intro t ht
      have htt : t = tok := bearer_append_inj.mp (ht.symm.trans h3)
      subst htt
      rw [h5, if_neg h4]
  · refine ⟨⟨?_, ?_⟩, ?_, ?_⟩
    · rintro ⟨error, h⟩
      rw [h7] at h
      simp at h
    · intro hn
      exact absurd ⟨_, h6⟩ hn
    · intro hn
      exact absurd ⟨_, h6⟩ hn
    · intro t ht
      have htt : t = config.APIKey := bearer_append_inj.mp (ht.symm.trans h6)
      rw [h7, if_pos htt]

/-- The header `Token abc` is not `Bearer ` followed by a token. -/
theorem token_abc_not_bearer : ¬ ∃ tok, "Token abc" = "Bearer " ++ tok := by
  rintro ⟨tok, h⟩
  have h2 := congrArg String.data h
  rw [String.data_append] at h2
  have h3 : some 'T' = some 'B' := congrArg List.head? h2
  exact absurd h3 (by decide)

/-- C2 (amended), applied to the header `Token abc`. -/
theorem C2_OptionalAuth_invalid_format_iff_witness :
    sampleConfig.RequireAuth = true ∧ sampleConfig.APIKey ≠ "" ∧ "Token abc" ≠ "" ∧
    ∃ error, OptionalAuth sampleConfig "Token abc" = .abort 401 error "INVALID_AUTH_FORMAT" :=
  ⟨by decide, by decide, by decide,
    (C2_OptionalAuth_invalid_format_iff sampleConfig "Token abc" (by decide) (by decide)
      (by decide)).1.mpr token_abc_not_bearer⟩

/-- C3: with a non-empty `APIKey` and `RequireAuth = true`, `OptionalAuth` and
`RequiredAuth` give the same outcome on every header: both run the next handler,
or both abort with status 401 and the same code, one of `MISSING_AUTH_HEADER`,
`INVALID_AUTH_FORMAT`, `INVALID_API_KEY`. -/
theorem C3_OptionalAuth_RequiredAuth_agree (config : Config) (authHeader : String)
    (hk : config.APIKey ≠ "") (hr : config.RequireAuth = true) :
    (OptionalAuth config authHeader = .next ∧ RequiredAuth config authHeader = .next) ∨
    ∃ code e1 e2,
      (code = "MISSING_AUTH_HEADER" ∨ code = "INVALID_AUTH_FORMAT" ∨ code = "INVALID_API_KEY") ∧
      OptionalAuth config authHeader = .abort 401 e1 code ∧
      RequiredAuth config authHeader = .abort 401 e2 code := by
  unfold OptionalAuth RequiredAuth
  by_cases he : authHeader = ""
  · right
    exact ⟨"MISSING_AUTH_HEADER", "Authorization header required",
      "Authorization header required", Or.inl rfl,
      by simp [hr, hk, he, StatusUnauthorized], by simp [hk, he, StatusUnauthorized]⟩
  · rcases SplitN_header_cases authHeader with ⟨tok, rfl, hs⟩ | ⟨hn, hs | ⟨p0, p1, hs, hp⟩⟩
    · by_cases ht : tok = config.APIKey
      · subst ht
        left; simp [hr, hk, he, hs]
      · right
        exact ⟨"INVALID_API_KEY", "Invalid API key", "Invalid API key", Or.inr (Or.inr rfl),
          by simp [hr, hk, he, hs, ht, StatusUnauthorized],
          by simp [hk, he, hs, ht, StatusUnauthorized]⟩
    · right
      exact ⟨"INVALID_AUTH_FORMAT",
        "Invalid Authorization header format. Expected: Bearer <token>",
        "Invalid Authorization header format", Or.inr (Or.inl rfl),
        by simp [hr, hk, he, hs, StatusUnauthorized], by simp [hk, he, hs, StatusUnauthorized]⟩
    · right
      exact ⟨"INVALID_AUTH_FORMAT",
        "Invalid Authorization header format. Expected: Bearer <token>",
        "Invalid Authorization header format", Or.inr (Or.inl rfl),
        by simp [hr, hk, he, hs, hp, StatusUnauthorized],
        by simp [hk, he, hs, hp, StatusUnauthorized]⟩

/-- C3, applied to the key `secret` and the header `Bearer wrong`: both gates
abort with `INVALID_API_KEY`. -/
theorem C3_OptionalAuth_RequiredAuth_agree_witness :
    (sampleConfig.APIKey ≠ "" ∧ sampleConfig.RequireAuth = true) ∧
    ((OptionalAuth sampleConfig "Bearer wrong" = .next ∧
        RequiredAuth sampleConfig "Bearer wrong" = .next) ∨
      ∃ code e1 e2,
        (code = "MISSING_AUTH_HEADER" ∨ code = "INVALID_AUTH_FORMAT" ∨
          code = "INVALID_API_KEY") ∧
        OptionalAuth sampleConfig "Bearer wrong" = .abort 401 e1 code ∧
        RequiredAuth sampleConfig "Bearer wrong" = .abort 401 e2 code) :=
  ⟨⟨by decide, by decide⟩,
    C3_OptionalAuth_RequiredAuth_agree sampleConfig "Bearer wrong" (by decide) (by decide)⟩

/-- C4: `RequiredAuth` aborts with code `CONFIG_ERROR` and status 500 exactly when
`APIKey` is empty, whatever the header and the `RequireAuth` flag, and none of its
other aborts has that code or that status; every abort of `OptionalAuth` has
status 401 and a code other than `CONFIG_ERROR`. -/
theorem C4_CONFIG_ERROR_only_RequiredAuth (config : Config) (authHeader : String) :
    (RequiredAuth config authHeader =
        .abort 500 "Server configuration error" "CONFIG_ERROR" ↔ config.APIKey = "") ∧
    (∀ status error code, RequiredAuth config authHeader = .abort status error code →
      ((status = 500 ∨ code = "CONFIG_ERROR") ↔ config.APIKey = "")) ∧
    (∀ status error code, OptionalAuth config authHeader = .abort status error code →
      status = 401 ∧ status ≠ 500 ∧ code ≠ "CONFIG_ERROR") := by
  refine ⟨?_, ?_, ?_⟩
  · rcases RequiredAuth_cases config authHeader with
      ⟨r1, r2⟩ | ⟨r0, -, r2⟩ | ⟨r0, -, -, r2⟩ | ⟨r0, -, -, r2⟩ | ⟨r0, -, r2⟩
    · simp [r1, r2]
    all_goals simp [r0, r2]
  · intro status error code
    rcases RequiredAuth_cases config authHeader with
      ⟨r1, r2⟩ | ⟨r0, -, r2⟩ | ⟨r0, -, -, r2⟩ | ⟨r0, -, -, r2⟩ | ⟨r0, -, r2⟩
    · rw [r2]
      simp only [AuthOutcome.abort.injEq]
      rintro ⟨rfl, -, rfl⟩
      simp [r1]
    all_goals
      rw [r2]
      first
        | (simp only [AuthOutcome.abort.injEq]
           rintro ⟨rfl, -, rfl⟩
           simp [r0])
        | (intro h; simp at h)
  · intro status error code
    unfold OptionalAuth
    by_cases hr : config.RequireAuth = false
    · simp [hr]
    · simp only [Bool.not_eq_false] at hr
      by_cases hk : config.APIKey = ""
      · simp [hr, hk]
      · have hc := OptionalAuth_cases config authHeader hr hk
        unfold OptionalAuth at hc
        rcases hc with ⟨-, o2⟩ | ⟨-, -, o2⟩ | ⟨-, -, o2⟩ | ⟨-, o2⟩
        all_goals
          rw [o2]
          first
            | (simp only [AuthOutcome.abort.injEq]
               rintro ⟨rfl, -, rfl⟩
               simp)
            | (intro h; simp at h)

/-! ## Completion forwarder: theorems -/

/-- C5: for every decoded request whose `messages` list is empty, whatever its
other fields, the configuration and the downstream, `HandleChatCompletion`
answers HTTP 400 with the error envelope of code `missing_messages` and makes no
call to `forwardToLLM`. -/
theorem C5_empty_messages_rejected (w : World) (config : Config)
    (req : ChatCompletionRequest) (hm : req.Messages = []) :
    (HandleChatCompletion w config (some req)).status = 400 ∧
    (HandleChatCompletion w config (some req)).body =
      .error "At least one message is required" "invalid_request_error" "missing_messages" ∧
    (HandleChatCompletion w config (some req)).forwarded = [] := by
  simp [HandleChatCompletion, hm, StatusBadRequest]

/-- C5, applied to a request with a model name and no message, against a
downstream that would answer 200. -/
theorem C5_empty_messages_rejected_witness :
    ({ sampleRequest with Model := "llama", Messages := [] } : ChatCompletionRequest).Messages
        = [] ∧
    (HandleChatCompletion (sampleWorld ⟨200, "completion", false⟩) sampleConfig
      (some { sampleRequest with Model := "llama", Messages := [] })).status = 400 ∧
    (HandleChatCompletion (sampleWorld ⟨200, "completion", false⟩) sampleConfig
      (some { sampleRequest with Model := "llama", Messages := [] })).body =
      .error "At least one message is required" "invalid_request_error" "missing_messages" ∧
    (HandleChatCompletion (sampleWorld ⟨200, "completion", false⟩) sampleConfig
      (some { sampleRequest with Model := "llama", Messages := [] })).forwarded = [] :=
  ⟨rfl, C5_empty_messages_rejected (sampleWorld ⟨200, "completion", false⟩) sampleConfig
    { sampleRequest with Model := "llama", Messages := [] } rfl⟩

/-- The handler forwards exactly the request with defaults set, when there is a
message. -/
theorem HandleChatCompletion_forwarded (w : World) (config : Config)
    (req : ChatCompletionRequest) (hm : req.Messages ≠ []) :
    (HandleChatCompletion w config (some req)).forwarded = [setDefaults config req] := by
  have hl : ¬ req.Messages.length = 0 := by
    simpa [List.length_eq_zero] using hm
  simp only [HandleChatCompletion, hl, if_false]
  cases forwardToLLM w config 0 (setDefaults config req) <;> rfl

/-- C6: for every decoded request with at least one message, `HandleChatCompletion`
calls `forwardToLLM` once, with a request whose `max_tokens` is
`Config.MaxTokens` if the request had `0` and the request value otherwise, whose
`temperature` is `Config.Temperature` if the request value compared equal to `0`
(either signed zero) and the request value otherwise, whose `model` is
`Config.ModelName` if the request had the empty string and the request value
otherwise, and whose messages, `stream`, `user` and `Extra` are those of the
request. -/
theorem C6_forwarded_request_defaults (w : World) (config : Config)
    (req : ChatCompletionRequest) (hm : req.Messages ≠ []) :
    ∃ fwd, (HandleChatCompletion w config (some req)).forwarded = [fwd] ∧
      fwd.MaxTokens = (if req.MaxTokens = 0 then config.MaxTokens else req.MaxTokens) ∧
      fwd.Temperature =
        (if req.Temperature.eqZero = true then config.Temperature else req.Temperature) ∧
      fwd.Model = (if req.Model = "" then config.ModelName else req.Model) ∧
      fwd.Messages = req.Messages ∧ fwd.Stream = req.Stream ∧ fwd.User = req.User ∧
      fwd.Extra = req.Extra := by
  refine ⟨setDefaults config req, HandleChatCompletion_forwarded w config req hm, ?_⟩
  unfold setDefaults
  by_cases h1 : req.MaxTokens = 0 <;> by_cases h2 : req.Temperature.eqZero = true <;>
    by_cases h3 : req.Model = "" <;> simp [h1, h2, h3]

/-- C6, applied to a request with one message and no `max_tokens`, `temperature`
or `model`: the forwarded request carries the three defaults of the
configuration. -/
theorem C6_forwarded_request_defaults_witness :
    sampleRequest.Messages ≠ [] ∧
    ∃ fwd, (HandleChatCompletion (sampleWorld ⟨200, "completion", false⟩) sampleConfig
        (some sampleRequest)).forwarded = [fwd] ∧
      fwd.MaxTokens =
        (if sampleRequest.MaxTokens = 0 then sampleConfig.MaxTokens
          else sampleRequest.MaxTokens) ∧
      fwd.Temperature =
        (if sampleRequest.Temperature.eqZero = true then sampleConfig.Temperature
          else sampleRequest.Temperature) ∧
      fwd.Model =
        (if sampleRequest.Model = "" then sampleConfig.ModelName else sampleRequest.Model) ∧
      fwd.Messages = sampleRequest.Messages ∧ fwd.Stream = sampleRequest.Stream ∧
      fwd.User = sampleRequest.User ∧ fwd.Extra = sampleRequest.Extra :=
  ⟨by decide, C6_forwarded_request_defaults (sampleWorld ⟨200, "completion", false⟩)
    sampleConfig sampleRequest (by decide)⟩

/-- A world whose downstream never answers 200 makes every forward fail. -/
theorem forwardToLLM_error_of_not_ok (w : World) (config : Config) (k : Nat)
    (req : ChatCompletionRequest)
    (hs : ∀ url payload t reply, w.Do k url payload t = some reply → reply.StatusCode ≠ 200) :
    ∃ e, forwardToLLM w config k req = .error e := by
  unfold forwardToLLM
  cases hj : w.Marshal req with
  | none => exact ⟨_, rfl⟩
  | some jsonData =>
    by_cases hn : w.NewRequest (config.LLMEndpoint ++ "/v1/chat/completions") = true
    · cases hd : w.Do k (config.LLMEndpoint ++ "/v1/chat/completions") jsonData
          config.RequestTimeout with
      | none => simp [hn, hd]
      | some resp =>
        have := hs _ _ _ _ hd
        simp [hn, hd, this]
    · simp [hn]

/-- When `client.Do` returns no response with status 200 for the downstream URL,
the forward fails. -/
theorem forwardToLLM_error_of_not_ok_at (w : World) (config : Config) (k : Nat)
    (req : ChatCompletionRequest)
    (hs : ∀ payload t reply,
      w.Do k (config.LLMEndpoint ++ "/v1/chat/completions") payload t = some reply →
      reply.StatusCode ≠ 200) :
    ∃ e, forwardToLLM w config k req = .error e := by
  unfold forwardToLLM
  cases hj : w.Marshal req with
  | none => exact ⟨_, rfl⟩
  | some jsonData =>
    by_cases hn : w.NewRequest (config.LLMEndpoint ++ "/v1/chat/completions") = true
    · cases hd : w.Do k (config.LLMEndpoint ++ "/v1/chat/completions") jsonData
          config.RequestTimeout with
      | none => simp [hn, hd]
      | some resp =>
        have := hs _ _ _ hd
        simp [hn, hd, this]
    · simp [hn]

/-- A world in which `client.Do` never returns a response with status 200 for the
downstream URL makes `HandleChatCompletion` answer the 503 envelope. -/
theorem HandleChatCompletion_503_of_not_ok (w : World) (config : Config)
    (req : ChatCompletionRequest) (hm : req.Messages ≠ [])
    (hs : ∀ payload t reply,
      w.Do 0 (config.LLMEndpoint ++ "/v1/chat/completions") payload t = some reply →
      reply.StatusCode ≠ 200) :
    (∃ e, forwardToLLM w config 0 (setDefaults config req) = .error e) ∧
    (HandleChatCompletion w config (some req)).status = 503 ∧
    (HandleChatCompletion w config (some req)).body =
      .error "LLM service unavailable" "service_unavailable" "llm_error" := by
  have hl : ¬ req.Messages.length = 0 := by
    simpa [List.length_eq_zero] using hm
  obtain ⟨e, he⟩ := forwardToLLM_error_of_not_ok_at w config 0 (setDefaults config req) hs
  refine ⟨⟨e, he⟩, ?_, ?_⟩ <;>
    simp [HandleChatCompletion, hl, he, StatusServiceUnavailable]

/-- A response that is not a redirect, or carries no `Location`, is what
`client.Do` returns. -/
theorem clientDo_not_followed (net : Network) (k : Nat) (url payload : String)
    (raw : RawReply) (hr : net.RoundTrip k "POST" url payload = some raw)
    (hn : redirectBehavior "POST" raw.StatusCode = none ∨ raw.Location = "") :
    clientDo net k url payload = some ⟨raw.StatusCode, raw.Body, raw.ReadErr⟩ := by
  unfold clientDo clientHop
  rw [hr]
  simp only []
  rcases hn with hn | hn
  · rw [hn]
  · cases hb : redirectBehavior "POST" raw.StatusCode with
    | none => rfl
    | some p =>
      obtain ⟨m, b⟩ := p
      simp only [hn, if_true]

/-- C7 (as stated, refuted): the request has one message and the downstream
answers the forwarded `POST` with status 302 (not 200), a `Location` header and
the body `moved`. The client built by `forwardToLLM` has no redirect policy, so
`client.Do` follows the redirect; the location answers 200 with a completion,
`forwardToLLM` succeeds and the REST client receives HTTP 200 with that
completion, not the 503 envelope. -/
theorem C7_counterexample_redirect_followed :
    sampleRequest.Messages ≠ [] ∧
    redirectNetwork.RoundTrip 0 "POST" (sampleConfig.LLMEndpoint ++ "/v1/chat/completions")
        "payload" = some ⟨302, "http://0.0.0.0:8080/elsewhere", "moved", false⟩ ∧
    (302 : Int) ≠ 200 ∧
    forwardToLLM (withNetwork (sampleWorld ⟨200, "", false⟩) redirectNetwork) sampleConfig 0
        (setDefaults sampleConfig sampleRequest) = .ok sampleResponse ∧
    (HandleChatCompletion (withNetwork (sampleWorld ⟨200, "", false⟩) redirectNetwork)
        sampleConfig (some sampleRequest)).status = 200 ∧
    (HandleChatCompletion (withNetwork (sampleWorld ⟨200, "", false⟩) redirectNetwork)
        sampleConfig (some sampleRequest)).body = .completion sampleResponse := by
  refine ⟨by decide, by decide, by decide, rfl, by decide, by decide⟩

/-- C7 (amended): for every request with at least one message and every response
that `client.Do` returns with a status other than 200, whatever its body,
`forwardToLLM` returns an error and no response, and `HandleChatCompletion`
answers HTTP 503 with the envelope `LLM service unavailable` /
`service_unavailable` / `llm_error`; for two such responses the status and body
sent to the client are the same. The response `client.Do` returns is the reply
of the downstream to the forwarded `POST` whenever that reply is not a redirect
(301, 302, 303, 307, 308) carrying a `Location` header, so every such downstream
reply with a status other than 200 gives the 503 envelope. -/
theorem C7_non_200_gives_503 (w : World) (config : Config) (req : ChatCompletionRequest)
    (reply reply2 : HTTPReply) (hm : req.Messages ≠ [])
    (hs : reply.StatusCode ≠ 200) (hs2 : reply2.StatusCode ≠ 200) :
    (∃ e, forwardToLLM { w with Do := fun _ _ _ _ => some reply } config 0
        (setDefaults config req) = .error e) ∧
    (HandleChatCompletion { w with Do := fun _ _ _ _ => some reply } config
        (some req)).status = 503 ∧
    (HandleChatCompletion { w with Do := fun _ _ _ _ => some reply } config (some req)).body =
      .error "LLM service unavailable" "service_unavailable" "llm_error" ∧
    (HandleChatCompletion { w with Do := fun _ _ _ _ => some reply } config
        (some req)).status =
      (HandleChatCompletion { w with Do := fun _ _ _ _ => some reply2 } config
        (some req)).status ∧
    (HandleChatCompletion { w with Do := fun _ _ _ _ => some reply } config (some req)).body =
      (HandleChatCompletion { w with Do := fun _ _ _ _ => some reply2 } config
        (some req)).body ∧
    (∀ (net : Network) (raw : RawReply),
      (∀ payload, net.RoundTrip 0 "POST" (config.LLMEndpoint ++ "/v1/chat/completions")
        payload = some raw) →
      raw.StatusCode ≠ 200 →
      (redirectBehavior "POST" raw.StatusCode = none ∨ raw.Location = "") →
      (∃ e, forwardToLLM (withNetwork w net) config 0 (setDefaults config req) = .error e) ∧
      (HandleChatCompletion (withNetwork w net) config (some req)).status = 503 ∧
      (HandleChatCompletion (withNetwork w net) config (some req)).body =
        .error "LLM service unavailable" "service_unavailable" "llm_error") ∧
    (∀ (net : Network),
      (∀ payload r, clientDo net 0 (config.LLMEndpoint ++ "/v1/chat/completions") payload
        = some r → r.StatusCode ≠ 200) →
      (∃ e, forwardToLLM (withNetwork w net) config 0 (setDefaults config req) = .error e) ∧
      (HandleChatCompletion (withNetwork w net) config (some req)).status = 503 ∧
      (HandleChatCompletion (withNetwork w net) config (some req)).body =
        .error "LLM service unavailable" "service_unavailable" "llm_error") := by
  have key : ∀ r : HTTPReply, r.StatusCode ≠ 200 →
      (∃ e, forwardToLLM { w with Do := fun _ _ _ _ => some r } config 0
        (setDefaults config req) = .error e) ∧
      (HandleChatCompletion { w with Do := fun _ _ _ _ => some r } config
        (some req)).status = 503 ∧
      (HandleChatCompletion { w with Do := fun _ _ _ _ => some r } config (some req)).body =
        .error "LLM service unavailable" "service_unavailable" "llm_error" := by
    intro r hr
    apply HandleChatCompletion_503_of_not_ok _ config req hm
    intro payload t rep h
    simp at h
    rw [← h]; exact hr
  obtain ⟨h1, h2, h3⟩ := key reply hs
  obtain ⟨-, h5, h6⟩ := key reply2 hs2
  refine ⟨h1, h2, h3, by rw [h2, h5], by rw [h3, h6], ?_, ?_⟩
  · intro net raw hrt hst hnr
    apply HandleChatCompletion_503_of_not_ok _ config req hm
    intro payload t rep h
    simp only [withNetwork] at h
    rw [clientDo_not_followed net 0 _ payload raw (hrt payload) hnr] at h
    simp at h
    rw [← h]; exact hst
  · intro net hall
    apply HandleChatCompletion_503_of_not_ok _ config req hm
    intro payload t rep h
    simp only [withNetwork] at h
    exact hall payload rep h

/-- C7, applied to a downstream that answers 500 with a well-formed completion
body and one that answers 404 with another body. -/
theorem C7_non_200_gives_503_witness :
    sampleRequest.Messages ≠ [] ∧
    (⟨500, "completion", false⟩ : HTTPReply).StatusCode ≠ 200 ∧
    (⟨404, "not found", false⟩ : HTTPReply).StatusCode ≠ 200 ∧
    (HandleChatCompletion
      { sampleWorld ⟨200, "", false⟩ with Do := fun _ _ _ _ => some ⟨500, "completion", false⟩ }
      sampleConfig (some sampleRequest)).status = 503 ∧
    (HandleChatCompletion
      { sampleWorld ⟨200, "", false⟩ with Do := fun _ _ _ _ => some ⟨500, "completion", false⟩ }
      sampleConfig (some sampleRequest)).body =
      .error "LLM service unavailable" "service_unavailable" "llm_error" :=
  ⟨by decide, by decide, by decide,
    (C7_non_200_gives_503 (sampleWorld ⟨200, "", false⟩) sampleConfig sampleRequest
      ⟨500, "completion", false⟩ ⟨404, "not found", false⟩ (by decide) (by decide)
      (by decide)).2.1,
    (C7_non_200_gives_503 (sampleWorld ⟨200, "", false⟩) sampleConfig sampleRequest
      ⟨500, "completion", false⟩ ⟨404, "not found", false⟩ (by decide) (by decide)
      (by decide)).2.2.1⟩

/-! ## WebSocket session: theorems -/

/-- When the forward succeeds with a response that has a first choice and the
write succeeds, the loop sends one `assistant` event carrying the content of
that choice and the usage structure, then goes on to the next read. -/
theorem wsLoop_chat_ok (w : World) (config : Config) (conn : Conn) (msg : WSMessage)
    (rest : List (Option WSMessage)) (st : LoopState) (response : ChatCompletionResponse)
    (choice : ChatCompletionChoice) (others : List ChatCompletionChoice)
    (ht : msg.Type' = "chat") (hc : msg.Content ≠ "")
    (hf : forwardToLLM w config st.calls (wsRequest config msg.Content) = .ok response)
    (hch : response.Choices = choice :: others) (hw : conn.WriteOk st.writes = true) :
    wsLoop w config conn (some msg :: rest) st =
      .read (some msg) :: .forward (wsRequest config msg.Content) ::
      .write { Type' := "assistant", Content := choice.Message.Content, Role := "",
               Timestamp := w.Now st.ticks, Data := .usage response.Usage, Error := "" } true ::
      wsLoop w config conn rest ⟨st.writes + 1, st.calls + 1, st.ticks + 1⟩ := by
  simp [wsLoop, ht, hc, hf, hch, hw]

/-- When the forward succeeds with a response without choices, the loop stops
at the index expression `response.Choices[0]`: nothing is sent, no further
frame is read. -/
theorem wsLoop_chat_no_choice (w : World) (config : Config) (conn : Conn) (msg : WSMessage)
    (rest : List (Option WSMessage)) (st : LoopState) (response : ChatCompletionResponse)
    (ht : msg.Type' = "chat") (hc : msg.Content ≠ "")
    (hf : forwardToLLM w config st.calls (wsRequest config msg.Content) = .ok response)
    (hch : response.Choices = []) :
    wsLoop w config conn (some msg :: rest) st =
      [.read (some msg), .forward (wsRequest config msg.Content), .panicked, .close] := by
  simp [wsLoop, ht, hc, hf, hch]

/-- C8 (the code at the failing input): the client sends `{type: "chat", content:
"hello"}` and then a second such event; the downstream answers 200 with the
body `{}`, which decodes as a `ChatCompletionResponse` without choices, so
`forwardToLLM` succeeds. After the welcome event the handler reads the first
event, forwards it, and panics at `response.Choices[0]`: no `assistant` event
is sent and the second event is never read. -/
theorem C8_empty_choices_panics :
    forwardToLLM (sampleWorld ⟨200, "\x7b\x7d", false⟩) sampleConfig 0
        (wsRequest sampleConfig "hello") = .ok zeroResponse ∧
    HandleWebSocket (sampleWorld ⟨200, "\x7b\x7d", false⟩) sampleConfig
        (sampleConn [chatHello, chatHello]) =
      [.write { Type' := "system",
                Content := "Neural interface connection established. Ready for input.",
                Role := "", Timestamp := 1000, Data := .absent, Error := "" } true,
       .read (some chatHello),
       .forward (wsRequest sampleConfig "hello"),
       .panicked,
       .close] := by
  constructor
  · rfl
  · decide

/-- The membership test `CheckOrigin` loops for. -/
theorem checkOriginLoop_iff (origin : String) (allowed : List String) :
    checkOriginLoop origin allowed = true ↔ "*" ∈ allowed ∨ origin ∈ allowed := by
  induction allowed with
  | nil => simp [checkOriginLoop]
  | cons a rest ih =>
    unfold checkOriginLoop
    by_cases h : origin = a ∨ a = "*"
    · simp only [h, if_true, List.mem_cons, true_iff]
      rcases h with h | h
      · exact Or.inr (Or.inl h)
      · exact Or.inl (Or.inl h.symm)
    · simp only [h, if_false, ih, List.mem_cons]
      have h1 : ¬ origin = a := fun e => h (Or.inl e)
      have h2 : ¬ "*" = a := fun e => h (Or.inr e.symm)
      simp [h1, h2]

/-- C9: `CheckOrigin` admits the upgrade exactly when `AllowedOrigins` contains
`*` or contains the `Origin` value itself; the origin `http://evil.example` is
refused against the list with the single entry `http://localhost:3000`, and an
empty list refuses every origin. -/
theorem C9_CheckOrigin_iff (config : Config) (origin : String) :
    (CheckOrigin config origin = true ↔
      ("*" ∈ config.AllowedOrigins ∨ origin ∈ config.AllowedOrigins)) ∧
    CheckOrigin { config with AllowedOrigins := ["http://localhost:3000"] }
      "http://evil.example" = false ∧
    CheckOrigin { config with AllowedOrigins := [] } origin = false := by
  refine ⟨checkOriginLoop_iff origin config.AllowedOrigins, ?_, ?_⟩
  · simp [CheckOrigin, checkOriginLoop]
  · simp [CheckOrigin, checkOriginLoop]

/-- C10: in the receive loop, for every decoded inbound event whose type is not
`chat` or whose content is empty, the handler does nothing but read it: it sends
no event, makes no call to `forwardToLLM`, and goes on to the next read with
the session counters unchanged. -/
theorem C10_other_events_ignored (w : World) (config : Config) (conn : Conn)
    (msg : WSMessage) (rest : List (Option WSMessage)) (st : LoopState)
    (h : msg.Type' ≠ "chat" ∨ msg.Content = "") :
    wsLoop w config conn (some msg :: rest) st =
      .read (some msg) :: wsLoop w config conn rest st := by
  have hn : ¬ (msg.Type' = "chat" ∧ msg.Content ≠ "") := by
    rintro ⟨h1, h2⟩
    rcases h with h | h
    · exact h h1
    · exact h2 h
  simp only [wsLoop, hn, if_false]

/-- C10, applied to a `ping` event followed by the departure of the client: the
session reads the event, sends nothing, and reads again. -/
theorem C10_other_events_ignored_witness :
    (pingEvent.Type' ≠ "chat" ∨ pingEvent.Content = "") ∧
    wsLoop (sampleWorld ⟨200, "completion", false⟩) sampleConfig (sampleConn [pingEvent])
        [some pingEvent] ⟨1, 0, 1⟩ =
      [.read (some pingEvent), .read none, .close] :=
  ⟨by decide, C10_other_events_ignored (sampleWorld ⟨200, "completion", false⟩) sampleConfig
    (sampleConn [pingEvent]) pingEvent [] ⟨1, 0, 1⟩ (by decide)⟩

/-- When the send of the welcome event fails, the handler reads no frame, makes
no forward and closes the connection. -/
theorem HandleWebSocket_welcome_send_fails (w : World) (config : Config) (conn : Conn)
    (hu : (conn.HandshakeOk && CheckOrigin config conn.Origin) = true)
    (hw : conn.WriteOk 0 = false) :
    HandleWebSocket w config conn =
      [.write { Type' := "system",
                Content := "Neural interface connection established. Ready for input.",
                Role := "", Timestamp := w.Now 0, Data := .absent, Error := "" } false,
       .close] := by
  simp [HandleWebSocket, hu, hw]

/-- When the send of an `assistant` reply fails, the loop stops: no further
frame is read, no further forward is made, the connection is closed. -/
theorem wsLoop_assistant_send_fails (w : World) (config : Config) (conn : Conn)
    (msg : WSMessage) (rest : List (Option WSMessage)) (st : LoopState)
    (response : ChatCompletionResponse) (choice : ChatCompletionChoice)
    (others : List ChatCompletionChoice)
    (ht : msg.Type' = "chat") (hc : msg.Content ≠ "")
    (hf : forwardToLLM w config st.calls (wsRequest config msg.Content) = .ok response)
    (hch : response.Choices = choice :: others) (hw : conn.WriteOk st.writes = false) :
    wsLoop w config conn (some msg :: rest) st =
      [.read (some msg), .forward (wsRequest config msg.Content),
       .write { Type' := "assistant", Content := choice.Message.Content, Role := "",
                Timestamp := w.Now st.ticks, Data := .usage response.Usage, Error := "" } false,
       .close] := by
  simp [wsLoop, ht, hc, hf, hch, hw]

/-- After a failed forward the loop sends the `error` event and goes on to the
next read whether that send succeeded or failed: the result of `WriteJSON` is
not looked at. -/
theorem wsLoop_error_send_ignored (w : World) (config : Config) (conn : Conn)
    (msg : WSMessage) (rest : List (Option WSMessage)) (st : LoopState) (e : ForwardError)
    (ht : msg.Type' = "chat") (hc : msg.Content ≠ "")
    (hf : forwardToLLM w config st.calls (wsRequest config msg.Content) = .error e) :
    wsLoop w config conn (some msg :: rest) st =
      .read (some msg) :: .forward (wsRequest config msg.Content) ::
      .write { Type' := "error", Content := "", Role := "", Timestamp := w.Now st.ticks,
               Data := .absent, Error := "Failed to process message" }
        (conn.WriteOk st.writes) ::
      wsLoop w config conn rest ⟨st.writes + 1, st.calls + 1, st.ticks + 1⟩ := by
  simp [wsLoop, ht, hc, hf]

/-- C11 (the code at the failing input): the downstream answers 500, so every
forward fails; the welcome event is sent, every later send fails; the client
sends two `chat` events. The send of the `error` event for the first one
fails, and the handler nevertheless reads the second event and forwards it
downstream; the connection is closed only when a read fails. -/
theorem C11_error_send_failure_ignored :
    (sampleConnWriteFails [chatHello, chatHello]).WriteOk 1 = false ∧
    HandleWebSocket (sampleWorld ⟨500, "", false⟩) sampleConfig
        (sampleConnWriteFails [chatHello, chatHello]) =
      [.write { Type' := "system",
                Content := "Neural interface connection established. Ready for input.",
                Role := "", Timestamp := 1000, Data := .absent, Error := "" } true,
       .read (some chatHello),
       .forward (wsRequest sampleConfig "hello"),
       .write (sampleErrorEvent 1001) false,
       .read (some chatHello),
       .forward (wsRequest sampleConfig "hello"),
       .write (sampleErrorEvent 1002) false,
       .read none,
       .close] := by
  constructor
  · decide
  · decide

end NeuralMCP
